import Mathlib

/-
Verification of the commit-helper workflow (src/generate_commit_message.py).

The script is sequential glue around three external collaborators: the git
library, the console, and the generative-text service.  We embed it as a
pure function of an `Env` record that fixes, for one run, everything those
collaborators would answer:

  * `repoFound`        -- whether `git.Repo(search_parent_directories=True)`
                          succeeds or raises `InvalidGitRepositoryError`;
  * `modifiedFiles`    -- the paths returned by `repo.index.diff(None)`;
  * `untrackedFiles`   -- `repo.untracked_files`;
  * `initialStaged`    -- paths already staged when the run starts;
  * `stagedDiff`       -- the text `repo.git.diff(STAGED_FLAG)` would return
                          as a function of the set of staged paths;
  * `apiKey`           -- `os.getenv(KEY_NAME)` after `load_dotenv()`
                          (`none` when unset; the empty string is falsy in
                          Python, so it also counts as missing);
  * `genResult`        -- the generative-text service: for a prompt, either
                          the text of the response or the message of the
                          exception raised;
  * `answers`          -- the lines the operator types at `input()` prompts.

`run` replays `main` over such an environment and records every observable
of the claims: printed lines in order, the exit status, the commits made,
the final staged and untracked sets, and how many times the network call
was made.
-/

namespace CommitHelper

/-- Printed when `git.Repo` raises `InvalidGitRepositoryError`. -/
def repoErrMsg : String := "Error: This script must be run inside a Git repository."

/-- Printed by `get_staged_diff` when the staged diff is empty. -/
def noChangesMsg : String := "No changes to commit. All tracked files are up to date."

/-- Printed by `generate_commit_message` when the API key is absent. -/
def apiKeyErrMsg : String :=
  "Error: GEMINI_API_KEY not found. Ensure it\x27s in a .env file in the repository\x27s root."

/-- Printed before the untracked-files question. -/
def untrackedHeader : String := "\nFound untracked files:"

/-- Printed before auto-staging modified files. -/
def modifiedHeader : String := "Found modified files. Staging them automatically:"

/-- Printed right after `repo.git.add(modified_files)`. -/
def modifiedStagedMsg : String := "Modified files staged."

/-- The `input()` prompt for staging untracked files. -/
def stagePrompt : String := "Do you want to add these files to git? (y/n): "

/-- Printed after the operator accepts staging of untracked files. -/
def addedMsg : String := "New files added to the staging area."

/-- Printed after the operator declines staging of untracked files. -/
def notAddedMsg : String := "Untracked files were not added."

/-- Printed before the network call. -/
def genHeader : String := "\nGenerating commit message with Gemini..."

/-- Diagnostic printed when the generative-text call raises; `e` is the cause. -/
def genErrMsg (e : String) : String := "Error generating commit message: " ++ e

/-- The block printing the generated message. -/
def generatedBlock (m : String) : String := "\nGenerated Commit Message:\n---\n" ++ m ++ "\n---"

/-- The `input()` prompt for final commit approval. -/
def commitPrompt : String := "\nDo you want to commit with this message? (y/n): "

/-- Printed after a successful commit. -/
def committedMsg : String := "Changes committed successfully! 🎉"

/-- Printed when the operator declines the final approval. -/
def abortedMsg : String := "Commit aborted."

/-- The f-string prompt built by `generate_commit_message` around the diff. -/
def buildPrompt (diff : String) : String :=
  "\n    Based on the following git diff, please generate a concise and descriptive commit message.\n    The message should follow the conventional commit format (e.g., \x27feat: add user authentication\x27).\n\n    Diff:\n    " ++ diff ++ "\n    "

/-- Python truthiness of `os.getenv(...)`: `None` and the empty string are falsy. -/
def keyFalsy : Option String → Bool
  | none => true
  | some s => s == ""

/-- The `.lower()` method applied to a console answer: every character is
mapped to its lowercase form. -/
def strLower (s : String) : String := String.mk (s.data.map Char.toLower)

/-- The report line printed for each modified or untracked path. -/
def pathLine (f : String) : String := "  - " ++ f

/-- One run worth of answers from the external collaborators. -/
structure Env where
  repoFound : Bool
  modifiedFiles : List String
  untrackedFiles : List String
  initialStaged : List String
  stagedDiff : List String → String
  apiKey : Option String
  genResult : String → Except String String
  answers : List String

/-- Result of the staging phase of `main` (lines 62-82 of the source). -/
structure StageOut where
  staged : List String
  untracked : List String
  answers : List String
  output : List String

/-- The staging phase of `main`: modified tracked files are staged with no
question asked; untracked files are listed and staged only when the operator
answers affirmatively, otherwise they are left untracked. -/
def stagingPhase (env : Env) : StageOut :=
  let stagedM :=
    if env.modifiedFiles.isEmpty then env.initialStaged
    else env.initialStaged ++ env.modifiedFiles
  let outM :=
    if env.modifiedFiles.isEmpty then ([] : List String)
    else modifiedHeader :: (env.modifiedFiles.map pathLine ++ [modifiedStagedMsg])
  if env.untrackedFiles.isEmpty then
    { staged := stagedM, untracked := env.untrackedFiles,
      answers := env.answers, output := outM }
  else
    let outU := untrackedHeader :: (env.untrackedFiles.map pathLine ++ [stagePrompt])
    let ans := env.answers.headD ""
    if strLower ans == "y" then
      { staged := stagedM ++ env.untrackedFiles, untracked := [],
        answers := env.answers.tail, output := outM ++ outU ++ [addedMsg] }
    else
      { staged := stagedM, untracked := env.untrackedFiles,
        answers := env.answers.tail, output := outM ++ outU ++ [notAddedMsg] }

/-- Everything observable about one run of `main`. -/
structure RunResult where
  exitCode : Nat
  output : List String
  commits : List String
  finalStaged : List String
  finalUntracked : List String
  genCalls : Nat

/-- The whole of `main`, replayed over an environment.  `approvalNeeded` is
the `-p` flag.  Each branch mirrors one exit path of the source. -/
def run (approvalNeeded : Bool) (env : Env) : RunResult :=
  if !env.repoFound then
    { exitCode := 1, output := [repoErrMsg], commits := [],
      finalStaged := env.initialStaged, finalUntracked := env.untrackedFiles,
      genCalls := 0 }
  else
    let st := stagingPhase env
    let diff := env.stagedDiff st.staged
    if diff == "" then
      { exitCode := 0, output := st.output ++ [noChangesMsg], commits := [],
        finalStaged := st.staged, finalUntracked := st.untracked,
        genCalls := 0 }
    else if keyFalsy env.apiKey then
      { exitCode := 1, output := st.output ++ [genHeader, apiKeyErrMsg], commits := [],
        finalStaged := st.staged, finalUntracked := st.untracked,
        genCalls := 0 }
    else
      match env.genResult (buildPrompt diff) with
      | Except.error e =>
        { exitCode := 1, output := st.output ++ [genHeader, genErrMsg e], commits := [],
          finalStaged := st.staged, finalUntracked := st.untracked,
          genCalls := 1 }
      | Except.ok txt =>
        let msg := txt.trim
        let outG := st.output ++ [genHeader, generatedBlock msg]
        if approvalNeeded then
          if strLower (st.answers.headD "") == "y" then
            { exitCode := 0, output := outG ++ [commitPrompt, committedMsg],
              commits := [msg], finalStaged := st.staged,
              finalUntracked := st.untracked, genCalls := 1 }
          else
            { exitCode := 0, output := outG ++ [commitPrompt, abortedMsg],
              commits := [], finalStaged := st.staged,
              finalUntracked := st.untracked, genCalls := 1 }
        else
          { exitCode := 0, output := outG ++ [committedMsg],
            commits := [msg], finalStaged := st.staged,
            finalUntracked := st.untracked, genCalls := 1 }

/-- The staging phase reads only the file lists, the initially staged set and
the console answers; in particular it never reads the API key. -/
theorem stagingPhase_eq (e1 e2 : Env)
    (hm : e1.modifiedFiles = e2.modifiedFiles)
    (hu : e1.untrackedFiles = e2.untrackedFiles)
    (hi : e1.initialStaged = e2.initialStaged)
    (ha : e1.answers = e2.answers) :
    stagingPhase e1 = stagingPhase e2 := by
  simp [stagingPhase, hm, hu, hi, ha]

/-- A concrete environment: outside any git repository. -/
def envNoRepo : Env :=
  { repoFound := false, modifiedFiles := ["a.txt"], untrackedFiles := ["b.txt"],
    initialStaged := [], stagedDiff := fun _ => "D", apiKey := some "k",
    genResult := fun _ => Except.ok "feat: x", answers := [] }

/-- C7: a run started outside a repository prints the user-facing message and
stops with exit status 1 before any staging, diff, or generation step. -/
theorem C7_not_a_repository (env : Env) (ap : Bool) (h : env.repoFound = false) :
    (run ap env).exitCode = 1 ∧
    repoErrMsg ∈ (run ap env).output ∧
    (run ap env).genCalls = 0 ∧
    (run ap env).finalStaged = env.initialStaged ∧
    (run ap env).finalUntracked = env.untrackedFiles ∧
    (run ap env).commits = [] := by
  simp [run, h]

/-- C7 witness: the theorem applied to a concrete environment. -/
theorem C7_not_a_repository_witness :
    (run true envNoRepo).exitCode = 1 ∧
    repoErrMsg ∈ (run true envNoRepo).output ∧
    (run true envNoRepo).genCalls = 0 ∧
    (run true envNoRepo).finalStaged = envNoRepo.initialStaged ∧
    (run true envNoRepo).finalUntracked = envNoRepo.untrackedFiles ∧
    (run true envNoRepo).commits = [] :=
  C7_not_a_repository envNoRepo true rfl

/-- C1: in a run without the approval flag in which the generation step
returns text `t` (so the run is successful: it exits with status 0),
exactly one commit is produced and its message is `t` with surrounding
whitespace stripped. -/
theorem C1_commit_uses_trimmed_message (env : Env) (t : String)
    (hrepo : env.repoFound = true)
    (hdiff : env.stagedDiff (stagingPhase env).staged ≠ "")
    (hkey : keyFalsy env.apiKey = false)
    (hgen : env.genResult (buildPrompt (env.stagedDiff (stagingPhase env).staged)) =
      Except.ok t) :
    (run false env).exitCode = 0 ∧ (run false env).commits = [t.trim] := by
  simp [run, hrepo, hkey, hgen, hdiff]

/-- A concrete environment: one modified file, key set, generation succeeds
with padded text. -/
def envOk : Env :=
  { repoFound := true, modifiedFiles := ["a.txt"], untrackedFiles := [],
    initialStaged := [], stagedDiff := fun l => if l.isEmpty then "" else "DIFF",
    apiKey := some "k", genResult := fun _ => Except.ok "  feat: add x  ",
    answers := [] }

/-- C1 witness: the theorem applied to a concrete environment. -/
theorem C1_commit_uses_trimmed_message_witness :
    (run false envOk).exitCode = 0 ∧
    (run false envOk).commits = [("  feat: add x  ").trim] :=
  C1_commit_uses_trimmed_message envOk "  feat: add x  " rfl (by decide) rfl rfl

/-- C2: when the staged diff is empty after the staging phase, the run
reports that there is nothing to commit (the line `noChangesMsg`),
exits with status 0, and never invokes the message-generation call. -/
theorem C2_empty_diff_exits_without_generation (env : Env) (ap : Bool)
    (hrepo : env.repoFound = true)
    (hdiff : env.stagedDiff (stagingPhase env).staged = "") :
    (run ap env).exitCode = 0 ∧
    (run ap env).genCalls = 0 ∧
    (run ap env).output.getLast? = some noChangesMsg := by
  simp [run, hrepo, hdiff]

/-- A concrete environment: clean repository, no API key. -/
def envEmptyDiff : Env :=
  { repoFound := true, modifiedFiles := [], untrackedFiles := [],
    initialStaged := [], stagedDiff := fun _ => "", apiKey := none,
    genResult := fun _ => Except.error "unreachable", answers := [] }

/-- C2 witness: the theorem applied to a concrete environment. -/
theorem C2_empty_diff_exits_without_generation_witness :
    (run false envEmptyDiff).exitCode = 0 ∧
    (run false envEmptyDiff).genCalls = 0 ∧
    (run false envEmptyDiff).output.getLast? = some noChangesMsg :=
  C2_empty_diff_exits_without_generation envEmptyDiff false rfl rfl

/-- C4: with a non-empty staged diff and the API key absent (or empty, which
Python treats as absent), the run prints the descriptive error line, exits
with code 1, and makes no network call. -/
theorem C4_missing_key_fatal (env : Env) (ap : Bool)
    (hrepo : env.repoFound = true)
    (hdiff : env.stagedDiff (stagingPhase env).staged ≠ "")
    (hkey : keyFalsy env.apiKey = true) :
    (run ap env).exitCode = 1 ∧
    (run ap env).genCalls = 0 ∧
    apiKeyErrMsg ∈ (run ap env).output := by
  simp [run, hrepo, hdiff, hkey]

/-- A concrete environment: staged changes but no API key. -/
def envNoKey : Env :=
  { repoFound := true, modifiedFiles := ["a.txt"], untrackedFiles := [],
    initialStaged := [], stagedDiff := fun l => if l.isEmpty then "" else "DIFF",
    apiKey := none, genResult := fun _ => Except.error "unreachable",
    answers := [] }

/-- C4 witness: the theorem applied to a concrete environment. -/
theorem C4_missing_key_fatal_witness :
    (run false envNoKey).exitCode = 1 ∧
    (run false envNoKey).genCalls = 0 ∧
    apiKeyErrMsg ∈ (run false envNoKey).output :=
  C4_missing_key_fatal envNoKey false rfl (by decide) rfl

/-- C5: when the generative-text call fails with cause `e`, the failure is
caught, a diagnostic naming `e` is printed, the process exits with non-zero
status, and the call was made exactly once (no retry). -/
theorem C5_generation_failure_fatal (env : Env) (ap : Bool) (e : String)
    (hrepo : env.repoFound = true)
    (hdiff : env.stagedDiff (stagingPhase env).staged ≠ "")
    (hkey : keyFalsy env.apiKey = false)
    (hgen : env.genResult (buildPrompt (env.stagedDiff (stagingPhase env).staged)) =
      Except.error e) :
    (run ap env).exitCode ≠ 0 ∧
    genErrMsg e ∈ (run ap env).output ∧
    (run ap env).genCalls = 1 := by
  simp [run, hrepo, hdiff, hkey, hgen]

/-- A concrete environment: the generative-text call raises. -/
def envGenFail : Env :=
  { repoFound := true, modifiedFiles := ["a.txt"], untrackedFiles := [],
    initialStaged := [], stagedDiff := fun l => if l.isEmpty then "" else "DIFF",
    apiKey := some "k", genResult := fun _ => Except.error "quota exceeded",
    answers := [] }

/-- C5 witness: the theorem applied to a concrete environment. -/
theorem C5_generation_failure_fatal_witness :
    (run false envGenFail).exitCode ≠ 0 ∧
    genErrMsg "quota exceeded" ∈ (run false envGenFail).output ∧
    (run false envGenFail).genCalls = 1 :=
  C5_generation_failure_fatal envGenFail false "quota exceeded" rfl (by decide) rfl rfl

/-- C10: when the staged diff is empty after the staging phase, the run exits
with status 0 and makes no network call whatever the value of the API key;
indeed the whole run result is independent of the key, so a missing key is
never detected or reported in such a run. -/
theorem C10_empty_diff_ignores_key (env : Env) (ap : Bool)
    (hrepo : env.repoFound = true)
    (hdiff : env.stagedDiff (stagingPhase env).staged = "") :
    (run ap env).exitCode = 0 ∧
    (run ap env).genCalls = 0 ∧
    ∀ k, run ap { env with apiKey := k } = run ap env := by
  refine ⟨?_, ?_, ?_⟩
  · simp [run, hrepo, hdiff]
  · simp [run, hrepo, hdiff]
  · intro k
    have hst : stagingPhase { env with apiKey := k } = stagingPhase env :=
      stagingPhase_eq _ _ rfl rfl rfl rfl
    simp only [run, hst]
    simp [hrepo, hdiff]

/-- C10 witness: the theorem applied to a concrete environment. -/
theorem C10_empty_diff_ignores_key_witness :
    (run false envEmptyDiff).exitCode = 0 ∧
    (run false envEmptyDiff).genCalls = 0 ∧
    ∀ k, run false { envEmptyDiff with apiKey := k } = run false envEmptyDiff :=
  C10_empty_diff_ignores_key envEmptyDiff false rfl rfl

/-- C3: in a run with the approval flag in which generation succeeded and the
operator declines the final confirmation, no commit is produced, the staged
set is exactly what the staging phase left (the commit step does not touch
it), and the line "Commit aborted." is the last output. -/
theorem C3_decline_aborts_without_commit (env : Env) (t : String)
    (hrepo : env.repoFound = true)
    (hdiff : env.stagedDiff (stagingPhase env).staged ≠ "")
    (hkey : keyFalsy env.apiKey = false)
    (hgen : env.genResult (buildPrompt (env.stagedDiff (stagingPhase env).staged)) =
      Except.ok t)
    (hans : strLower ((stagingPhase env).answers.headD "") ≠ "y") :
    (run true env).commits = [] ∧
    (run true env).finalStaged = (stagingPhase env).staged ∧
    (run true env).output.getLast? = some abortedMsg := by
  rw [List.headD_eq_head?] at hans
  simp [run, hrepo, hdiff, hkey, hgen, hans]

/-- A concrete environment: approval requested, operator answers "n". -/
def envDecline : Env :=
  { repoFound := true, modifiedFiles := ["a.txt"], untrackedFiles := [],
    initialStaged := [], stagedDiff := fun l => if l.isEmpty then "" else "DIFF",
    apiKey := some "k", genResult := fun _ => Except.ok "feat: x",
    answers := ["n"] }

/-- C3 witness: the theorem applied to a concrete environment. -/
theorem C3_decline_aborts_without_commit_witness :
    (run true envDecline).commits = [] ∧
    (run true envDecline).finalStaged = (stagingPhase envDecline).staged ∧
    (run true envDecline).output.getLast? = some abortedMsg :=
  C3_decline_aborts_without_commit envDecline "feat: x" rfl (by decide) rfl rfl
    (by decide)

/-- On every run that gets past the repository check, the untracked files
reported at the end are exactly the ones the staging phase left untracked:
no later step touches them. -/
theorem run_finalUntracked (ap : Bool) (env : Env) (hrepo : env.repoFound = true) :
    (run ap env).finalUntracked = (stagingPhase env).untracked := by
  simp only [run, hrepo, Bool.not_true, Bool.false_eq_true, if_false]
  split
  · rfl
  · split
    · rfl
    · split
      · rfl
      · split
        · split
          · rfl
          · rfl
        · rfl

/-- On every run that gets past the repository check, the output starts with
the staging-phase output: execution continues from the staging phase into
the diff-extraction step and beyond. -/
theorem run_output_extends (ap : Bool) (env : Env) (hrepo : env.repoFound = true) :
    ∃ suf, (run ap env).output = (stagingPhase env).output ++ suf := by
  simp only [run, hrepo, Bool.not_true, Bool.false_eq_true, if_false]
  split
  · exact ⟨[noChangesMsg], rfl⟩
  · split
    · exact ⟨[genHeader, apiKeyErrMsg], rfl⟩
    · split
      · exact ⟨_, rfl⟩
      · split
        · split
          · exact ⟨_, List.append_assoc _ _ _⟩
          · exact ⟨_, List.append_assoc _ _ _⟩
        · exact ⟨_, List.append_assoc _ _ _⟩

/-- C6: in every run where the operator declines the untracked-file staging
confirmation, the untracked files are left untracked (the staging phase
stages only the modified files), the run continues to the diff-extraction
step (the decline notice is printed, execution goes on, and the files are
still untracked when the run ends); when the staged diff then turns out
empty — in particular with no modified files and a single declined
untracked file — the run terminates with the no-changes outcome, exit
status 0, and no generation call. -/
theorem C6_untracked_decline_continues (env : Env) (ap : Bool) (a : String)
    (rest : List String)
    (hrepo : env.repoFound = true)
    (hu : env.untrackedFiles ≠ [])
    (hans : env.answers = a :: rest)
    (ha : strLower a ≠ "y") :
    (stagingPhase env).untracked = env.untrackedFiles ∧
    (stagingPhase env).staged =
      (if env.modifiedFiles.isEmpty then env.initialStaged
        else env.initialStaged ++ env.modifiedFiles) ∧
    (run ap env).finalUntracked = env.untrackedFiles ∧
    notAddedMsg ∈ (run ap env).output ∧
    (env.stagedDiff (stagingPhase env).staged = "" →
      (run ap env).exitCode = 0 ∧ (run ap env).genCalls = 0 ∧
      (run ap env).output.getLast? = some noChangesMsg) := by
  have hu' : env.untrackedFiles.isEmpty = false := by
    cases h : env.untrackedFiles with
    | nil => exact absurd h hu
    | cons x xs => rfl
  have hunt : (stagingPhase env).untracked = env.untrackedFiles := by
    simp [stagingPhase, hu', hans, ha]
  have hstg : (stagingPhase env).staged =
      (if env.modifiedFiles.isEmpty then env.initialStaged
        else env.initialStaged ++ env.modifiedFiles) := by
    simp [stagingPhase, hu', hans, ha]
  have hmem : notAddedMsg ∈ (stagingPhase env).output := by
    simp [stagingPhase, hu', hans, ha]
  refine ⟨hunt, hstg, ?_, ?_, ?_⟩
  · rw [run_finalUntracked ap env hrepo, hunt]
  · obtain ⟨suf, hsuf⟩ := run_output_extends ap env hrepo
    rw [hsuf]
    exact List.mem_append_left _ hmem
  · intro hdiff
    simp [run, hrepo, hdiff]

/-- A concrete environment for scenario B: one untracked file, answer "n". -/
def envUntrackedDecline : Env :=
  { repoFound := true, modifiedFiles := [], untrackedFiles := ["new.txt"],
    initialStaged := [], stagedDiff := fun l => if l.isEmpty then "" else "D",
    apiKey := some "k", genResult := fun _ => Except.ok "m", answers := ["n"] }

/-- C6 witness: the theorem applied to the scenario B environment, where the
staged diff is empty after the decline, so the no-changes conjunct fires. -/
theorem C6_untracked_decline_continues_witness :
    ((stagingPhase envUntrackedDecline).untracked = envUntrackedDecline.untrackedFiles ∧
      (stagingPhase envUntrackedDecline).staged =
        (if envUntrackedDecline.modifiedFiles.isEmpty then envUntrackedDecline.initialStaged
          else envUntrackedDecline.initialStaged ++ envUntrackedDecline.modifiedFiles) ∧
      (run false envUntrackedDecline).finalUntracked = envUntrackedDecline.untrackedFiles ∧
      notAddedMsg ∈ (run false envUntrackedDecline).output ∧
      (envUntrackedDecline.stagedDiff (stagingPhase envUntrackedDecline).staged = "" →
        (run false envUntrackedDecline).exitCode = 0 ∧
        (run false envUntrackedDecline).genCalls = 0 ∧
        (run false envUntrackedDecline).output.getLast? = some noChangesMsg)) ∧
    envUntrackedDecline.stagedDiff (stagingPhase envUntrackedDecline).staged = "" :=
  ⟨C6_untracked_decline_continues envUntrackedDecline false "n" []
      rfl (by decide) rfl (by decide),
    by decide⟩

/-- C8: whenever there are modified tracked files, the staging phase stages
every one of them with no confirmation (the conclusion holds for every
environment, whatever the console answers), and the output begins with the
header and one report line per path, all printed before the line that
follows the staging call. -/
theorem C8_modified_staged_unconditionally (env : Env)
    (hmod : env.modifiedFiles ≠ []) :
    env.modifiedFiles ⊆ (stagingPhase env).staged ∧
    ∃ rest, (stagingPhase env).output =
      modifiedHeader :: (env.modifiedFiles.map pathLine ++ (modifiedStagedMsg :: rest)) := by
  have hm : env.modifiedFiles.isEmpty = false := by
    cases h : env.modifiedFiles with
    | nil => exact absurd h hmod
    | cons x xs => rfl
  constructor
  · intro x hx
    by_cases hu : env.untrackedFiles.isEmpty
    · simp [stagingPhase, hm, hu, hx]
    · by_cases hy : strLower (env.answers.head?.getD "") = "y"
      · simp [stagingPhase, hm, hu, hy, hx]
      · simp [stagingPhase, hm, hu, hy, hx]
  · by_cases hu : env.untrackedFiles.isEmpty
    · exact ⟨[], by simp [stagingPhase, hm, hu]⟩
    · by_cases hy : strLower (env.answers.head?.getD "") = "y"
      · refine ⟨untrackedHeader ::
          (env.untrackedFiles.map pathLine ++ [stagePrompt, addedMsg]), ?_⟩
        simp [stagingPhase, hm, hu, hy]
      · refine ⟨untrackedHeader ::
          (env.untrackedFiles.map pathLine ++ [stagePrompt, notAddedMsg]), ?_⟩
        simp [stagingPhase, hm, hu, hy]

/-- A concrete environment: one modified file together with an untracked one. -/
def envModified : Env :=
  { repoFound := true, modifiedFiles := ["a.txt"], untrackedFiles := ["u.txt"],
    initialStaged := [], stagedDiff := fun _ => "D", apiKey := some "k",
    genResult := fun _ => Except.ok "m", answers := ["n"] }

/-- C8 witness: the theorem applied to a concrete environment. -/
theorem C8_modified_staged_unconditionally_witness :
    envModified.modifiedFiles ⊆ (stagingPhase envModified).staged ∧
    ∃ rest, (stagingPhase envModified).output =
      modifiedHeader ::
        (envModified.modifiedFiles.map pathLine ++ (modifiedStagedMsg :: rest)) :=
  C8_modified_staged_unconditionally envModified (by decide)

/-- C9: both yes/no prompts compare the lowercased answer with the literal
"y": the untracked files end up staged (their list emptied) exactly when the
first answer lowercases to "y", and a commit is produced exactly when the
approval answer lowercases to "y"; every other input declines. -/
theorem C9_prompts_compare_lowercase_y (env : Env) (a b t : String)
    (hu : env.untrackedFiles ≠ [])
    (hans : env.answers = [a, b])
    (hrepo : env.repoFound = true)
    (hdiff : env.stagedDiff (stagingPhase env).staged ≠ "")
    (hkey : keyFalsy env.apiKey = false)
    (hgen : env.genResult (buildPrompt (env.stagedDiff (stagingPhase env).staged)) =
      Except.ok t) :
    ((stagingPhase env).untracked = [] ↔ strLower a = "y") ∧
    ((run true env).commits ≠ [] ↔ strLower b = "y") := by
  have hu' : env.untrackedFiles.isEmpty = false := by
    cases h : env.untrackedFiles with
    | nil => exact absurd h hu
    | cons x xs => rfl
  by_cases hy : strLower a = "y" <;> by_cases hb : strLower b = "y" <;>
    simp [stagingPhase, hans, hu', hy] at hdiff hgen ⊢ <;>
      simp [run, stagingPhase, hans, hu', hy, hb, hrepo, hkey, hgen, hdiff, hu]

/-- A concrete environment: uppercase answers at both prompts. -/
def envPrompts : Env :=
  { repoFound := true, modifiedFiles := [], untrackedFiles := ["u.txt"],
    initialStaged := [], stagedDiff := fun _ => "D", apiKey := some "k",
    genResult := fun _ => Except.ok "m", answers := ["Y", "N"] }

/-- C9 witness: the theorem applied to a concrete environment. -/
theorem C9_prompts_compare_lowercase_y_witness :
    ((stagingPhase envPrompts).untracked = [] ↔ strLower "Y" = "y") ∧
    ((run true envPrompts).commits ≠ [] ↔ strLower "N" = "y") :=
  C9_prompts_compare_lowercase_y envPrompts "Y" "N" "m" (by decide) rfl rfl
    (by decide) rfl rfl

end CommitHelper
